import Mathlib

/-!
Verification development for the ComplianceShield accessibility scanner
(`server.js` and its duplicated copies; the canonical, most complete copy is
`src/unnamed/part_002`, the only one containing the scan-history diff endpoint
and the monthly monitor interval).

The JavaScript source is shallowly embedded:

* pure string/array computations become computable Lean functions on
  `String`/`List`;
* JavaScript regular-expression searches used by the scanner are translated
  into explicit character-list scanners with the same leftmost-match,
  greedy/backtracking behaviour (ASCII inputs; JS `\s` is modelled by
  `Char.isWhitespace`);
* IEEE-754 double arithmetic in the colorimetry (`Math.pow`, division) is
  idealised over `ℝ` (with `Real.rpow`), and the score's `Math.round` over `ℚ`
  (for non-negative x, `Math.round x = ⌊x + 1/2⌋`, Mathlib's `round`);
* the DOM (cheerio) is abstracted into a `Doc` record holding, for each rule,
  the element data the rule's selector extracts from the page; each numbered
  rule block of `scanHTML` is translated over those fields;
* network I/O in `fetchHTML` becomes a response function `String → NetResp`,
  and Node's `new URL(location, base)` redirect resolution an explicit
  `resolve` parameter (the timeout and 5 MiB size-abort paths are real-time
  behaviour outside this embedding);
* element excerpt strings pushed into issue lists keep the data they carry but
  not the exact byte-level template formatting (e.g. the JS float `toFixed`
  in the contrast excerpt is not reproduced); only their presence and counts
  are load-bearing for the properties below.
-/

/-! ### String helpers (JS truthiness, case folding, searching) -/

/-- JS `String.prototype.trim` (ASCII whitespace), over the character list so
that it reduces in the kernel. -/
def trimChars (cs : List Char) : List Char :=
  ((cs.dropWhile Char.isWhitespace).reverse.dropWhile Char.isWhitespace).reverse

/-- JS `trim()` on a `String`. -/
def jsTrim (s : String) : String :=
  ⟨trimChars s.data⟩

/-- JS `toLowerCase()` (ASCII). -/
def jsLower (s : String) : String :=
  ⟨s.data.map Char.toLower⟩

/-- JS `substring(0, n)` (equivalently `slice(0, n)`) on an ASCII string. -/
def jsTake (s : String) (n : Nat) : String :=
  ⟨s.data.take n⟩

/-- JS `startsWith` over character lists. -/
def headIs : List Char → List Char → Bool
  | [], _ => true
  | _ :: _, [] => false
  | p :: ps, c :: cs => p = c && headIs ps cs

/-- JS truthiness of an optional attribute string: `undefined` and `""` are
falsy, every other string truthy. -/
def truthy : Option String → Bool
  | none => false
  | some s => s ≠ ""

/-- JS `a || b` on optional strings: the first operand when truthy, else the
second. -/
def orF (a b : Option String) : Option String :=
  if truthy a then a else b

/-- Strip `pat` (given in lowercase) from the front of `cs`, comparing
case-insensitively; returns the remainder on success. -/
def stripCI : List Char → List Char → Option (List Char)
  | [], cs => some cs
  | _ :: _, [] => none
  | p :: ps, c :: cs => if c.toLower = p then stripCI ps cs else none

/-- Whether `pat` (lowercase) occurs in `cs`, case-insensitively: models an
unanchored JS regex search for a literal word with the `i` flag. -/
def searchCI (pat : List Char) : List Char → Bool
  | [] => (stripCI pat []).isSome
  | c :: cs => (stripCI pat (c :: cs)).isSome || searchCI pat cs

/-- String-level wrapper for `searchCI`. -/
def containsCI (s : String) (pat : String) : Bool :=
  searchCI pat.data s.data

/-- Skip `\s*`. -/
def skipWs (cs : List Char) : List Char :=
  cs.dropWhile Char.isWhitespace

/-- Decimal value of a digit run. -/
def digitsVal (ds : List Char) : Nat :=
  ds.foldl (fun acc c => 10 * acc + (c.toNat - '0'.toNat)) 0

/-- Split a leading `\d+` run (possibly empty) from the rest. -/
def takeDigits (cs : List Char) : List Char × List Char :=
  (cs.takeWhile Char.isDigit, cs.dropWhile Char.isDigit)

/-- JS `parseInt` on an attribute string, decimal: optional leading
whitespace and sign, then digits; no digits gives `NaN` (`none`). -/
def jsParseInt (s : String) : Option Int :=
  let cs := skipWs s.data
  match cs with
  | '-' :: rest =>
    let (ds, _) := takeDigits rest
    if ds = [] then none else some (-(digitsVal ds : Int))
  | '+' :: rest =>
    let (ds, _) := takeDigits rest
    if ds = [] then none else some (digitsVal ds : Int)
  | _ =>
    let (ds, _) := takeDigits cs
    if ds = [] then none else some (digitsVal ds : Int)

/-! ### Color parsing (`parseColor`, part_002 lines 194-224) -/

structure RGB where
  r : Nat
  g : Nat
  b : Nat
  deriving DecidableEq, Repr

/-- The fixed named-color table of `parseColor`; `transparent` maps to `null`. -/
def namedColors : List (String × Option String) :=
  [("white", some "#ffffff"), ("black", some "#000000"), ("red", some "#ff0000"),
   ("green", some "#008000"), ("blue", some "#0000ff"), ("yellow", some "#ffff00"),
   ("gray", some "#808080"), ("grey", some "#808080"), ("silver", some "#c0c0c0"),
   ("orange", some "#ffa500"), ("purple", some "#800080"), ("navy", some "#000080"),
   ("teal", some "#008080"), ("maroon", some "#800000"), ("lime", some "#00ff00"),
   ("aqua", some "#00ffff"), ("fuchsia", some "#ff00ff"), ("olive", some "#808000"),
   ("darkgray", some "#a9a9a9"), ("lightgray", some "#d3d3d3"),
   ("transparent", none)]

def namedLookup (s : String) : Option (Option String) :=
  (namedColors.find? (fun p => p.1 = s)).map (fun p => p.2)

/-- A lowercase hex digit, the character class `[0-9a-f]`. -/
def isHexLower (c : Char) : Bool :=
  ('0' ≤ c && c ≤ '9') || ('a' ≤ c && c ≤ 'f')

def hexVal (c : Char) : Nat :=
  if '0' ≤ c ∧ c ≤ '9' then c.toNat - '0'.toNat else c.toNat - 'a'.toNat + 10

def hexPair (a b : Char) : Nat :=
  16 * hexVal a + hexVal b

/-- The hex branch: `^#([0-9a-f]{3,8})$`, 3-digit shorthand doubled, then a
6- or 8-digit result parsed pairwise (alpha digits of an 8-digit value are
ignored). A matched length of 4, 5 or 7 returns nothing, falling through to
the `rgb()` branch exactly as the source does. -/
def hexParse (s : String) : Option RGB :=
  match s.data with
  | '#' :: rest =>
    if rest.all isHexLower && 3 ≤ rest.length && rest.length ≤ 8 then
      let hex := match rest with
        | [a, b, c] => [a, a, b, b, c, c]
        | other => other
      match hex with
      | [a, b, c, d, e, f] => some ⟨hexPair a b, hexPair c d, hexPair e f⟩
      | [a, b, c, d, e, f, _, _] => some ⟨hexPair a b, hexPair c d, hexPair e f⟩
      | _ => none
    else none
  | _ => none

/-- After `rgb(`/`rgba(`: `\s*(\d+)\s*,\s*(\d+)\s*,\s*(\d+)` (the close paren
is not required by the source regex). Values are not clamped to 255. -/
def rgbTail (cs : List Char) : Option RGB :=
  let (d1, cs2) := takeDigits (skipWs cs)
  if d1 = [] then none else
  match skipWs cs2 with
  | ',' :: cs4 =>
    let (d2, cs6) := takeDigits (skipWs cs4)
    if d2 = [] then none else
    match skipWs cs6 with
    | ',' :: cs8 =>
      let (d3, _) := takeDigits (skipWs cs8)
      if d3 = [] then none else some ⟨digitsVal d1, digitsVal d2, digitsVal d3⟩
    | _ => none
  | _ => none

/-- Unanchored search for `rgba?\(...` (the input is already lowercased). -/
def rgbSearch : List Char → Option RGB
  | [] => none
  | c :: cs =>
    (match c :: cs with
     | 'r' :: 'g' :: 'b' :: 'a' :: '(' :: rest => rgbTail rest
     | 'r' :: 'g' :: 'b' :: '(' :: rest => rgbTail rest
     | _ => none) <|> rgbSearch cs

/-- Model of `parseColor(colorStr)`: empty input is falsy; otherwise trim and
lowercase, substitute the named-color table (with `transparent` yielding
`null`), then try the hex pattern and finally the `rgb()/rgba()` pattern. -/
def parseColor (s : String) : Option RGB :=
  if s = "" then none
  else
    let t := jsLower (jsTrim s)
    let t1 : Option String :=
      match namedLookup t with
      | some v => v
      | none => some t
    match t1 with
    | none => none
    | some u => hexParse u <|> rgbSearch u.data

/-! ### Colorimetry (`relativeLuminance`, `contrastRatio`) -/

/-- sRGB channel linearisation: `v ≤ 0.03928` uses the linear segment, above
it the gamma-2.4 power curve, per the source's `relativeLuminance`. -/
noncomputable def channelLin (v : ℝ) : ℝ :=
  if v ≤ 0.03928 then v / 12.92 else ((v + 0.055) / 1.055) ^ (2.4 : ℝ)

/-- WCAG relative luminance with weights 0.2126 / 0.7152 / 0.0722. -/
noncomputable def relativeLuminance (c : RGB) : ℝ :=
  0.2126 * channelLin ((c.r : ℝ) / 255) + 0.7152 * channelLin ((c.g : ℝ) / 255) +
    0.0722 * channelLin ((c.b : ℝ) / 255)

/-- Contrast: `(lighter + 0.05) / (darker + 0.05)`. -/
noncomputable def contrastRatio (c1 c2 : RGB) : ℝ :=
  (max (relativeLuminance c1) (relativeLuminance c2) + 0.05) /
    (min (relativeLuminance c1) (relativeLuminance c2) + 0.05)


/-! ### Page fetcher (`fetchHTML`, part_002 lines 226-288)

The network is a response function `net : String → NetResp`; Node's
`new URL(location, base)` is the parameter `resolve location base`, returning
`none` when the redirect target does not parse. The timeout and payload-size
aborts are outside the embedding; `doFetch`'s redirect/terminal-status logic is
translated below. -/

structure NetResp where
  status : Nat
  location : Option String
  body : String
  deriving DecidableEq, Repr

inductive FetchErr where
  | tooManyRedirects
  | invalidRedirect
  | httpStatus (code : Nat)
  deriving DecidableEq, Repr

/-- Terminal (non-redirect) handling: `if (res.statusCode !== 200) reject(new
Error('HTTP ' + res.statusCode))`, else the decoded body resolves. -/
def terminalResult (res : NetResp) : Except FetchErr String :=
  if res.status ≠ 200 then .error (.httpStatus res.status) else .ok res.body

/-- Model of `doFetch` with the closure counter `redirects`: a response with a
3xx status and a truthy `location` header (absent and empty are both falsy in
`res.headers.location && ...`) increments the counter, fails with
`tooManyRedirects` once the counter exceeds 5, fails with `invalidRedirect`
when the target does not resolve, and otherwise recurses on the resolved URL;
any other response is terminal. -/
def doFetch (net : String → NetResp) (resolve : String → String → Option String) :
    String → Nat → Except FetchErr String
  | u, redirects =>
    let res := net u
    match res.location with
    | some loc =>
      if 300 ≤ res.status ∧ res.status < 400 ∧ loc ≠ "" then
        if _h : redirects + 1 > 5 then .error .tooManyRedirects
        else
          match resolve loc u with
          | none => .error .invalidRedirect
          | some nu => doFetch net resolve nu (redirects + 1)
      else terminalResult res
    | none => terminalResult res
  termination_by _ redirects => 6 - redirects
  decreasing_by omega

/-- `fetchHTML` after URL normalisation: the recursion starts with the counter
at 0. -/
def fetchModel (net : String → NetResp) (resolve : String → String → Option String)
    (u : String) : Except FetchErr String :=
  doFetch net resolve u 0

/-- A redirect response pointing at `target`, with the status used by the
boundary scenarios. -/
def redirResp (target : String) : NetResp :=
  ⟨301, some target, ""⟩

/-- Identity resolution: every redirect target parses as itself. -/
def resolveId : String → String → Option String :=
  fun loc _ => some loc

/-- A chain of exactly 5 redirect hops ending in a 200. -/
def net5 : String → NetResp := fun u =>
  if u = "u0" then redirResp "u1"
  else if u = "u1" then redirResp "u2"
  else if u = "u2" then redirResp "u3"
  else if u = "u3" then redirResp "u4"
  else if u = "u4" then redirResp "u5"
  else ⟨200, none, "done"⟩

/-- A chain of exactly 6 redirect hops ending in a 200. -/
def net6 : String → NetResp := fun u =>
  if u = "u0" then redirResp "u1"
  else if u = "u1" then redirResp "u2"
  else if u = "u2" then redirResp "u3"
  else if u = "u3" then redirResp "u4"
  else if u = "u4" then redirResp "u5"
  else if u = "u5" then redirResp "u6"
  else ⟨200, none, "done"⟩

/-- One redirect whose target does not parse as a URL. -/
def netBadTarget : String → NetResp := fun u =>
  if u = "u0" then redirResp "::not a url::" else ⟨200, none, "done"⟩

/-- Resolution that rejects the malformed target. -/
def resolveBad : String → String → Option String :=
  fun loc _ => if loc = "::not a url::" then none else some loc

/-- A network whose every response is terminal with the given status. -/
def constNet (code : Nat) (body : String) : String → NetResp :=
  fun _ => ⟨code, none, body⟩


/-! ### Monitors: registration (`POST /api/monitor`, part_002 lines 742-778)
and the scheduled scan runner (`runScheduledScans`, part_002 lines 795-821)

Time is in milliseconds (`Date.now()`/`getTime()`); `uuidv4()` is the
`freshId` parameter; Node's `new URL` validity check on the normalised URL is
the `urlParses` parameter. The `createdAt`/`updatedAt` bookkeeping strings are
not load-bearing and are omitted. -/

structure Monitor where
  id : String
  url : String
  email : String
  frequency : String
  active : Bool
  lastScanAt : Option Nat
  lastScore : Option Nat
  nextScanAt : Option Nat
  deriving DecidableEq, Repr

/-- A scan record as the scheduler appends it to the history (only the fields
the scheduler reads are kept). -/
structure ScanRec where
  url : String
  score : Nat
  deriving DecidableEq, Repr

/-- The frequency-to-interval ternary used both at registration and in the
scheduler: daily 24 h, monthly a fixed 30 days, everything else (including
`weekly` and an absent frequency) 7 days. -/
def intervalMs (frequency : String) : Nat :=
  if frequency = "daily" then 24 * 60 * 60 * 1000
  else if frequency = "monthly" then 30 * 24 * 60 * 60 * 1000
  else 7 * 24 * 60 * 60 * 1000

/-- `if (monitor.nextScanAt && new Date(monitor.nextScanAt) > now) continue`:
a monitor with no next-due timestamp is due; otherwise it is due once the
timestamp is at or before now. -/
def dueAt (m : Monitor) (now : Nat) : Bool :=
  match m.nextScanAt with
  | none => true
  | some t => t ≤ now

/-- The per-tick loop of `runScheduledScans`: each monitor is skipped when
inactive or not yet due; otherwise its scan either succeeds (`outcome m =
some sr`: the record is appended to the history and the monitor's last-scan,
last-score and next-due fields are updated) or throws (`outcome m = none`:
the failure is only logged and the loop continues with the monitor
untouched). -/
def runScheduledScans (outcome : Monitor → Option ScanRec) (now : Nat) :
    List Monitor → List ScanRec → List Monitor × List ScanRec
  | [], hist => ([], hist)
  | m :: rest, hist =>
    if ¬ m.active then
      let (ms, h) := runScheduledScans outcome now rest hist
      (m :: ms, h)
    else if ¬ dueAt m now then
      let (ms, h) := runScheduledScans outcome now rest hist
      (m :: ms, h)
    else
      match outcome m with
      | some sr =>
        let m' : Monitor :=
          { m with lastScanAt := some now, lastScore := some sr.score,
                   nextScanAt := some (now + intervalMs m.frequency) }
        let (ms, h) := runScheduledScans outcome now rest (hist ++ [sr])
        (m' :: ms, h)
      | none =>
        let (ms, h) := runScheduledScans outcome now rest hist
        (m :: ms, h)

/-- The anchored e-mail regex `^[^\s@]+@[^\s@]+\.[^\s@]+$`: a character
allowed in each part. -/
def emailChar (c : Char) : Bool :=
  ¬ c.isWhitespace && c ≠ '@'

/-- Split at the first occurrence of `ch`. -/
def splitAtFirst (ch : Char) : List Char → Option (List Char × List Char)
  | [] => none
  | c :: cs =>
    if c = ch then some ([], cs)
    else (splitAtFirst ch cs).map (fun p => (c :: p.1, p.2))

/-- Whether a `.` occurs at an interior position (neither first nor last). -/
def interiorDot : List Char → Bool
  | [] => false
  | [_] => false
  | _ :: c :: rest => (c = '.' && rest ≠ []) || interiorDot (c :: rest)

/-- `email.match(/^[^\s@]+@[^\s@]+\.[^\s@]+$/)`: a non-empty `@`-and-space
free part, one `@`, then a non-empty part containing an interior dot. -/
def emailOk (email : String) : Bool :=
  match splitAtFirst '@' email.data with
  | none => false
  | some (lpart, domain) =>
    lpart ≠ [] && lpart.all emailChar && domain ≠ [] && domain.all emailChar &&
      interiorDot domain

/-- The scheme test `^https?:\/\//i`. -/
def schemeOk (s : String) : Bool :=
  headIs "http://".data (jsLower s).data || headIs "https://".data (jsLower s).data

/-- `url.trim()` then prefixing `https://` when no scheme matches. -/
def normalizeUrl (url : String) : String :=
  let t := jsTrim url
  if schemeOk t then t else "https://" ++ t

/-- Replace the first element satisfying `p` (JS mutates the object
`monitors.find` returned). -/
def updateFirst (p : Monitor → Bool) (f : Monitor → Monitor) :
    List Monitor → List Monitor
  | [] => []
  | m :: ms => if p m then f m :: ms else m :: updateFirst p f ms

inductive RegResult where
  | err (msg : String)
  | updated (m : Monitor)
  | created (m : Monitor)
  deriving DecidableEq, Repr

/-- Model of the `POST /api/monitor` handler: validation, URL normalisation,
then lookup by `m.url === normalizedUrl && m.email === email` (the submitted
e-mail, unnormalised). A hit updates that record's frequency and reactivates
it; a miss appends a fresh record whose stored e-mail is
`email.trim().toLowerCase()` and whose first due time uses the raw frequency.
An absent frequency is modelled as `""` (both are falsy in JS). -/
def registerMonitor (urlParses : String → Bool) (freshId : String) (nowMs : Nat)
    (url email frequency : String) (monitors : List Monitor) :
    RegResult × List Monitor :=
  if url = "" || email = "" then (.err "URL and email are required", monitors)
  else if ¬ emailOk email then (.err "Invalid email address", monitors)
  else
    let normalizedUrl := normalizeUrl url
    if ¬ urlParses normalizedUrl then (.err "Invalid URL", monitors)
    else
      match monitors.find? (fun m => m.url = normalizedUrl && m.email = email) with
      | some existing =>
        let upd : Monitor :=
          { existing with
            frequency := if frequency = "" then "weekly" else frequency,
            active := true }
        (.updated upd,
          updateFirst (fun m => m.url = normalizedUrl && m.email = email)
            (fun m =>
              { m with
                frequency := if frequency = "" then "weekly" else frequency,
                active := true })
            monitors)
      | none =>
        let fresh : Monitor :=
          { id := freshId, url := normalizedUrl, email := jsLower (jsTrim email),
            frequency := if frequency = "" then "weekly" else frequency,
            active := true, lastScanAt := none, lastScore := none,
            nextScanAt := some (nowMs + intervalMs frequency) }
        (.created fresh, monitors ++ [fresh])


/-- A monitor due at time 500 with daily frequency, for the C7 witness. -/
def monDaily : Monitor :=
  ⟨"m1", "https://example.com", "a@b.com", "daily", true, none, none, some 500⟩

/-- A successful scan outcome for the C7 witness. -/
def outcomeOk : Monitor → Option ScanRec :=
  fun _ => some ⟨"https://example.com", 91⟩

/-- A scan outcome that always throws, for the C10 witness. -/
def outcomeFail : Monitor → Option ScanRec :=
  fun _ => none

/-- A second monitor processed after the failing one in the C10 witness. -/
def monWeekly : Monitor :=
  ⟨"m2", "https://other.example", "b@c.com", "weekly", true, none, none, some 700⟩

/-! ### Rule catalogue (`WCAG_RULES`): identities and severities -/

inductive Severity where
  | critical
  | serious
  | moderate
  | minor
  deriving DecidableEq, Repr

inductive ComplianceLevel where
  | compliant
  | needsImprovement
  | partiallyCompliant
  | nonCompliant
  deriving DecidableEq, Repr

/-- The 23 rule identifiers of the catalogue, in definition order.
`lowContrastText` is defined in the catalogue but never evaluated by
`scanHTML` in this version. -/
inductive RuleId where
  | missingAlt
  | emptyAlt
  | missingLang
  | missingTitle
  | missingHeading
  | skippedHeading
  | missingFormLabel
  | emptyLink
  | emptyButton
  | missingViewport
  | noSkipLink
  | missingLandmark
  | lowContrastText
  | autoplayMedia
  | tabindexPositive
  | missingTableHeader
  | metaRefresh
  | inlineStylesText
  | colorContrastInline
  | keyboardTrap
  | missingFocusStyle
  | genericLinkText
  | missingKeyboardAccess
  deriving DecidableEq, Repr

/-- The source's string identifier of each rule. -/
def ruleIdStr : RuleId → String
  | .missingAlt => "missing-alt"
  | .emptyAlt => "empty-alt"
  | .missingLang => "missing-lang"
  | .missingTitle => "missing-title"
  | .missingHeading => "missing-heading"
  | .skippedHeading => "skipped-heading"
  | .missingFormLabel => "missing-form-label"
  | .emptyLink => "empty-link"
  | .emptyButton => "empty-button"
  | .missingViewport => "missing-viewport"
  | .noSkipLink => "no-skip-link"
  | .missingLandmark => "missing-landmark"
  | .lowContrastText => "low-contrast-text"
  | .autoplayMedia => "autoplay-media"
  | .tabindexPositive => "tabindex-positive"
  | .missingTableHeader => "missing-table-header"
  | .metaRefresh => "meta-refresh"
  | .inlineStylesText => "inline-styles-text"
  | .colorContrastInline => "color-contrast-inline"
  | .keyboardTrap => "keyboard-trap"
  | .missingFocusStyle => "missing-focus-style"
  | .genericLinkText => "generic-link-text"
  | .missingKeyboardAccess => "missing-keyboard-access"

/-- Each rule's `impact` field from `WCAG_RULES`. -/
def impactOf : RuleId → Severity
  | .missingAlt => .critical
  | .emptyAlt => .serious
  | .missingLang => .serious
  | .missingTitle => .serious
  | .missingHeading => .moderate
  | .skippedHeading => .moderate
  | .missingFormLabel => .critical
  | .emptyLink => .serious
  | .emptyButton => .critical
  | .missingViewport => .moderate
  | .noSkipLink => .moderate
  | .missingLandmark => .moderate
  | .lowContrastText => .serious
  | .autoplayMedia => .serious
  | .tabindexPositive => .moderate
  | .missingTableHeader => .serious
  | .metaRefresh => .critical
  | .inlineStylesText => .minor
  | .colorContrastInline => .serious
  | .keyboardTrap => .critical
  | .missingFocusStyle => .serious
  | .genericLinkText => .moderate
  | .missingKeyboardAccess => .serious

/-- An Issue as `addIssue` builds it: the rule (with its severity from the
catalogue), the first five offending excerpts, and the true total count. -/
structure Issue where
  ruleId : RuleId
  impact : Severity
  elements : List String
  count : Nat
  deriving DecidableEq, Repr

structure ScanWarning where
  ruleId : RuleId
  details : String
  deriving DecidableEq, Repr

structure Pass where
  ruleId : RuleId
  deriving DecidableEq, Repr

/-! ### Trend/diff engine (`GET /api/scan-history/:encodedUrl`, part_002
lines 704-741) -/

/-- The fields of a stored scan record the diff endpoint reads. -/
structure RecLite where
  id : String
  score : Int
  issues : List Issue
  deriving DecidableEq, Repr

structure DiffRes where
  scoreChange : Int
  issuesFixed : List RuleId
  issuesFixedCount : Nat
  newIssues : List RuleId
  newIssuesCount : Nat
  deriving DecidableEq, Repr

/-- Iteration order of `new Set(list)`: first occurrences, in order. -/
def dedupFirstAux (seen : List RuleId) : List RuleId → List RuleId
  | [] => []
  | x :: xs =>
    if x ∈ seen then dedupFirstAux seen xs else x :: dedupFirstAux (x :: seen) xs

def dedupFirst (l : List RuleId) : List RuleId :=
  dedupFirstAux [] l

/-- The pairwise diff between two consecutive records: set difference over
issue rule identifiers in each direction (`fixed` and `newIssues`), with
counts; occurrence counts inside `Issue` never enter the computation. -/
def mkDiff (prev curr : RecLite) : DiffRes :=
  let prevIssueIds := dedupFirst (prev.issues.map (fun i => i.ruleId))
  let currIssueIds := dedupFirst (curr.issues.map (fun i => i.ruleId))
  let fixed := prevIssueIds.filter (fun rid => !currIssueIds.contains rid)
  let newIssues := currIssueIds.filter (fun rid => !prevIssueIds.contains rid)
  { scoreChange := curr.score - prev.score
    issuesFixed := fixed
    issuesFixedCount := fixed.length
    newIssues := newIssues
    newIssuesCount := newIssues.length }

structure HistEntry where
  id : String
  score : Int
  diff : Option DiffRes
  deriving DecidableEq, Repr

/-- Translation of `urlScans.map((scan, i) => ...)`: the entry for index `i`
carries `diff` computed against `urlScans[i-1]` exactly when `i > 0`; the
recursion threads the previous record instead of indexing. -/
def buildHistory : Option RecLite → List RecLite → List HistEntry
  | _, [] => []
  | prev, s :: rest =>
    { id := s.id, score := s.score, diff := prev.map (fun p => mkDiff p s) } ::
      buildHistory (some s) rest



def recThree : RecLite :=
  ⟨"scan-1", 80, [⟨.missingAlt, .critical, ["a", "b", "c"], 3⟩]⟩

def recOne : RecLite :=
  ⟨"scan-2", 85, [⟨.missingAlt, .critical, ["a"], 1⟩]⟩

/-! ### The evaluator's document model

`scanHTML` walks a cheerio-parsed DOM. The `Doc` record holds, for each rule
block, the element data its selectors extract: one entry per matched element,
with the attribute values the block reads. The single stylesheet-level regex
of rule 19 (`[^}]*:focus\s*\x7b[^}]*outline\s*:\s*(none|0)[^}]*/gi` over the
concatenated `<style>` texts) is an external regex-engine call modelled by the
`styleFocusMatches` input (the list of matches); the per-match filtering and
selector extraction that follow it are translated below. -/

structure ImgEl where
  alt : Option String
  src : Option String
  role : Option String
  deriving DecidableEq, Repr

structure HeadingEl where
  level : Nat
  text : String
  deriving DecidableEq, Repr

structure FormCtl where
  tag : String
  type : Option String
  id : Option String
  ariaLabel : Option String
  ariaLabelledby : Option String
  title : Option String
  name : Option String
  wrappedInLabel : Bool
  deriving DecidableEq, Repr

structure LinkEl where
  text : String
  ariaLabel : Option String
  ariaLabelledby : Option String
  title : Option String
  hasAltImg : Bool
  href : Option String
  deriving DecidableEq, Repr

structure BtnEl where
  tag : String
  text : String
  ariaLabel : Option String
  value : Option String
  title : Option String
  deriving DecidableEq, Repr

structure TabEl where
  tag : String
  tabindex : String
  deriving DecidableEq, Repr

structure TableEl where
  tdCount : Nat
  thCount : Nat
  deriving DecidableEq, Repr

structure StyledEl where
  style : String
  text : String
  deriving DecidableEq, Repr

structure KeyEl where
  tag : String
  onkeydown : Option String
  onkeypress : Option String
  deriving DecidableEq, Repr

structure TagStyleEl where
  tag : String
  style : String
  deriving DecidableEq, Repr

structure ClickEl where
  tag : String
  role : Option String
  tabindex : Option String
  onkeydown : Option String
  onkeypress : Option String
  onkeyup : Option String
  text : String
  deriving DecidableEq, Repr

structure Doc where
  imgs : List ImgEl
  langAttr : Option String
  xmlLangAttr : Option String
  titleText : String
  headingEls : List HeadingEl
  formControls : List FormCtl
  labelFors : List String
  links : List LinkEl
  buttons : List BtnEl
  viewportContent : Option String
  roleNavCount : Nat
  mainCount : Nat
  navCount : Nat
  headerCount : Nat
  footerCount : Nat
  autoplayEls : List String
  tabindexEls : List TabEl
  tables : List TableEl
  metaRefreshCount : Nat
  styledEls : List StyledEl
  keyEls : List KeyEl
  styleFocusMatches : List String
  interactiveStyled : List TagStyleEl
  clickEls : List ClickEl
  deriving Repr

/-! ### Rule predicates (`scanHTML` blocks 1-21) -/

/-- Block 1: `<img>` elements whose `alt` attribute is absent. -/
def imgsNoAlt (doc : Doc) : List String :=
  doc.imgs.filterMap (fun im =>
    if im.alt = none then
      some ("<img src=\"" ++ jsTake (im.src.getD "") 80 ++ "\">")
    else none)

/-- Block 1: `<img>` elements whose `alt` is present but blank, without a
`role` attribute (absent or empty is falsy). -/
def imgsEmptyAlt (doc : Doc) : List String :=
  doc.imgs.filterMap (fun im =>
    match im.alt with
    | some a =>
      if jsTrim a = "" && !truthy im.role then
        some ("<img src=\"" ++ jsTake (im.src.getD "") 80 ++ "\" alt=\"\">")
      else none
    | none => none)

/-- Block 4: the collected headings, text trimmed and capped at 60. -/
def headingsOf (doc : Doc) : List HeadingEl :=
  doc.headingEls.map (fun h => ⟨h.level, jsTake (jsTrim h.text) 60⟩)

/-- Block 5: consecutive heading pairs whose level jumps by more than one. -/
def skippedPairs (hs : List HeadingEl) : List String :=
  (hs.zip hs.tail).filterMap (fun p =>
    if p.2.level > p.1.level + 1 then
      some ("h" ++ toString p.1.level ++ " to h" ++ toString p.2.level ++
        " (\"" ++ p.2.text ++ "\")")
    else none)

/-- Block 6: form controls (input/select/textarea) with none of label-for
association, wrapping label, ARIA label/labelledby or title; hidden, submit,
button, reset and image input types are skipped. -/
def unlabeledControls (doc : Doc) : List String :=
  doc.formControls.filterMap (fun c =>
    let ty := (orF c.type (some "text")).getD "text"
    if ["hidden", "submit", "button", "reset", "image"].contains ty then none
    else
      let ariaLabel := orF c.ariaLabel c.ariaLabelledby
      let hasLabel := truthy c.id && doc.labelFors.contains (c.id.getD "")
      if !hasLabel && !c.wrappedInLabel && !truthy ariaLabel && !truthy c.title then
        some ("<" ++ c.tag ++ " name=\"" ++
          (orF c.name (orF c.id (some ty))).getD ty ++ "\">")
      else none)

/-- Block 7: links with no trimmed text, no ARIA label, no labelled-by, no
alt-bearing image child and no title. -/
def emptyLinksOf (doc : Doc) : List String :=
  doc.links.filterMap (fun l =>
    if jsTrim l.text = "" && !truthy l.ariaLabel && !truthy l.ariaLabelledby &&
        !l.hasAltImg && !truthy l.title then
      some ("<a href=\"" ++ jsTake (l.href.getD "") 60 ++ "\"> (no text)</a>")
    else none)

/-- Block 8: buttons with no text, aria-label, value or title. -/
def emptyButtonsOf (doc : Doc) : List String :=
  doc.buttons.filterMap (fun b =>
    if jsTrim b.text = "" && !truthy b.ariaLabel && !truthy b.value &&
        !truthy b.title then
      some ("<" ++ b.tag ++ "> (no accessible name)")
    else none)

/-- Block 10: one of the first five links is an in-page link whose lowercased
text mentions skip / main content / jump. -/
def hasSkipLink (doc : Doc) : Bool :=
  (doc.links.take 5).any (fun l =>
    headIs "#".data (l.href.getD "").data &&
      (containsCI l.text "skip" || containsCI l.text "main content" ||
        containsCI l.text "jump"))

/-- Block 11: how many of the four landmark kinds are present (tag or role). -/
def landmarkCount (doc : Doc) : Nat :=
  ([decide (0 < doc.mainCount), decide (0 < doc.navCount),
    decide (0 < doc.headerCount), decide (0 < doc.footerCount)].filter id).length

/-- Block 13: elements whose `tabindex` parses to a positive integer. -/
def posTabindex (doc : Doc) : List String :=
  doc.tabindexEls.filterMap (fun e =>
    match jsParseInt e.tabindex with
    | some v =>
      if v > 0 then
        some ("<" ++ e.tag ++ " tabindex=\"" ++ toString v ++ "\">")
      else none
    | none => none)

/-- Block 14: tables classified as data tables (more than 4 `td` cells). -/
def dataTablesOf (doc : Doc) : List TableEl :=
  doc.tables.filter (fun t => t.tdCount > 4)

/-- Block 14: data tables with zero `th` cells. -/
def tablesNoHeader (doc : Doc) : List String :=
  (dataTablesOf doc).filterMap (fun t =>
    if t.thCount = 0 then some "<table> without <th>" else none)

/-- Block 16's test `/color\s*:/i` at one position. -/
def colorColonAt (cs : List Char) : Bool :=
  match stripCI "color".data cs with
  | some rest =>
    match skipWs rest with
    | ':' :: _ => true
    | _ => false
  | none => false

/-- Unanchored search for `/color\s*:/i`. -/
def colorColonSearch : List Char → Bool
  | [] => false
  | c :: cs => colorColonAt (c :: cs) || colorColonSearch cs

/-- Block 16: how many styled elements declare a color inline (this also
counts `background-color:`, as the unanchored source regex does). -/
def inlineColorCount (doc : Doc) : Nat :=
  (doc.styledEls.filter (fun e => colorColonSearch e.style.data)).length

/-! ### Block 17: inline color-contrast extraction

The two declaration regexes `(?:^|;)\s*color\s*:\s*([^;]+)/i` and
`background(?:-color)?\s*:\s*([^;]+)/i` are translated with the engine's
leftmost-match and greedy/backtracking behaviour. -/

/-- The shared tail `\s*:\s*([^;]+)`: optional whitespace, a colon, then the
capture. The capture region runs to the next `;`; the greedy `\s*` leaves the
capture whitespace-stripped unless the region is all whitespace, in which case
backtracking yields its last character. An empty region fails the match. -/
def declTail (cs : List Char) : Option String :=
  match skipWs cs with
  | ':' :: rest =>
    let region := rest.takeWhile (fun c => c ≠ ';')
    if region = [] then none
    else
      let cap := region.dropWhile Char.isWhitespace
      if cap = [] then some ⟨region.drop (region.length - 1)⟩ else some ⟨cap⟩
  | _ => none

/-- `color` then the declaration tail, at one position (after the `^`/`;`
anchor has been consumed). -/
def colorDeclAfter (cs : List Char) : Option String :=
  match stripCI "color".data (skipWs cs) with
  | some rest => declTail rest
  | none => none

/-- Leftmost search for `(?:^|;)\s*color\s*:\s*([^;]+)` with the
start-of-string branch tried at offset 0 and the `;` branch at every
offset. -/
def colorDeclSearch : Bool → List Char → Option String
  | isStart, [] => if isStart then colorDeclAfter [] else none
  | isStart, c :: rest =>
    (if isStart then colorDeclAfter (c :: rest) else none) <|>
    (if c = ';' then colorDeclAfter rest else none) <|>
    colorDeclSearch false rest

/-- The capture of `style.match(/(?:^|;)\s*color\s*:\s*([^;]+)/i)`. -/
def findColorDecl (style : String) : Option String :=
  colorDeclSearch true style.data

/-- `background`, optionally `-color` (tried first, with backtracking), then
the declaration tail. -/
def bgDeclAfter (cs : List Char) : Option String :=
  match stripCI "background".data cs with
  | some rest =>
    (match stripCI "-color".data rest with
     | some rest2 => declTail rest2
     | none => none) <|> declTail rest
  | none => none

/-- Leftmost search for `background(?:-color)?\s*:\s*([^;]+)`. -/
def bgDeclSearch : List Char → Option String
  | [] => none
  | c :: rest => bgDeclAfter (c :: rest) <|> bgDeclSearch rest

/-- The capture of `style.match(/background(?:-color)?\s*:\s*([^;]+)/i)`. -/
def findBgDecl (style : String) : Option String :=
  bgDeclSearch style.data

open Classical in
/-- Block 17, one element: when the inline style yields both captures and both
parse to a color, a violation is recorded exactly when the contrast of the two
parsed colors is strictly below 4.5 (the recorded excerpt carries the trimmed
element text, or `(element)` when blank, and the two raw color expressions;
the formatted numeric ratio is not reproduced). -/
noncomputable def contrastCheck (style text : String) : Option String :=
  match findColorDecl style, findBgDecl style with
  | some fgs, some bgs =>
    match parseColor fgs, parseColor bgs with
    | some fg, some bg =>
      if contrastRatio fg bg < 4.5 then
        some ("\"" ++
          (if jsTake (jsTrim text) 40 = "" then "(element)"
           else jsTake (jsTrim text) 40) ++
          "\" [color:" ++ jsTrim fgs ++ ", bg:" ++ jsTrim bgs ++ "]")
      else none
    | _, _ => none
  | _, _ => none

/-- Block 17 over all styled elements. -/
noncomputable def contrastViolations (els : List StyledEl) : List String :=
  els.filterMap (fun e => contrastCheck e.style e.text)

/-! ### Blocks 18-21 -/

/-- Block 18: elements with key handlers whose concatenated handler text
suppresses default behaviour without mentioning Tab/Escape/27/9. -/
def keyboardTraps (doc : Doc) : List String :=
  doc.keyEls.filterMap (fun k =>
    let handler := (k.onkeydown.getD "") ++ (k.onkeypress.getD "")
    if containsCI handler "preventdefault" &&
        !(containsCI handler "tab" || containsCI handler "escape" ||
          containsCI handler "27" || containsCI handler "9") then
      some ("<" ++ k.tag ++ "> with aggressive key prevention")
    else none)

/-- The inline test `/outline\s*:\s*(none|0)/i` at one position. -/
def outlineNoneAt (cs : List Char) : Bool :=
  match stripCI "outline".data cs with
  | some rest =>
    match skipWs rest with
    | ':' :: rest2 =>
      let rest3 := skipWs rest2
      (stripCI "none".data rest3).isSome || headIs "0".data rest3
    | _ => false
  | none => false

/-- Unanchored search for `/outline\s*:\s*(none|0)/i`. -/
def outlineNoneSearch : List Char → Bool
  | [] => false
  | c :: cs => outlineNoneAt (c :: cs) || outlineNoneSearch cs

/-- Block 19: stylesheet `:focus` matches without a box-shadow/border
substitute (selector = text before the first brace, trimmed, capped at 60),
then interactive elements with inline `outline:none`/`outline:0` and no
substitute. -/
def focusSuppressedList (doc : Doc) : List String :=
  doc.styleFocusMatches.filterMap (fun m =>
    if !(containsCI m "box-shadow" || containsCI m "border") then
      some (jsTake (jsTrim ⟨m.data.takeWhile (fun c => c ≠ '\x7b')⟩) 60 ++
        " - outline removed without alternative")
    else none) ++
  doc.interactiveStyled.filterMap (fun e =>
    if outlineNoneSearch e.style.data &&
        !(containsCI e.style "box-shadow" || containsCI e.style "border") then
      some ("<" ++ e.tag ++ "> inline outline:none")
    else none)

/-- Block 20's fixed list of generic phrases. -/
def genericPhrases : List String :=
  ["click here", "here", "read more", "learn more", "more", "link", "this",
   "go", "details", "continue"]

/-- Block 20: links whose trimmed lowercased text exactly matches a generic
phrase. -/
def genericLinksOf (doc : Doc) : List String :=
  doc.links.filterMap (fun l =>
    let t := jsLower (jsTrim l.text)
    if t ≠ "" && genericPhrases.contains t then
      some ("\"" ++ t ++ "\" to " ++
        (let h := jsTake (l.href.getD "") 40
         if h = "" then "(no href)" else h))
    else none)

/-- Block 21's natively interactive tags. -/
def interactiveTags : List String :=
  ["a", "button", "input", "select", "textarea", "summary"]

/-- Block 21: clickable non-interactive elements (by tag and role) lacking a
tabindex or lacking any key handler. -/
def noKeyboardList (doc : Doc) : List String :=
  doc.clickEls.filterMap (fun c =>
    let tag := jsLower c.tag
    let role := c.role.getD ""
    if !interactiveTags.contains tag && role ≠ "button" && role ≠ "link" then
      let hasTabindex := c.tabindex.isSome
      let hasKeyHandler := truthy c.onkeydown || truthy c.onkeypress ||
        truthy c.onkeyup
      if !hasTabindex || !hasKeyHandler then
        some ("<" ++ tag ++ "> \"" ++ jsTake (jsTrim c.text) 40 ++
          "\" - has onclick but " ++
          (if !hasTabindex then "no tabindex" else "no key handler"))
      else none
    else none)

/-! ### Outcome assembly, scoring and classification -/

/-- What one rule block contributes to the three result arrays: each numbered
block of `scanHTML` pushes at most one entry for its rule into exactly one of
`issues` / `passes` / `warnings`, or nothing. -/
inductive Outcome where
  | issue (elems : List String)
  | pass
  | warning (details : String)
  | silent
  deriving DecidableEq, Repr

/-- The outcome each rule block computes, translated block by block from
`scanHTML` (part_002 lines 290-552): the `if`/`else if` emission structure of
each block, over that block's violation list. `lowContrastText` is in the
catalogue but has no block. -/
noncomputable def ruleOutcome (doc : Doc) : RuleId → Outcome
  | .missingAlt =>
    if (imgsNoAlt doc).length > 0 then .issue (imgsNoAlt doc) else .pass
  | .emptyAlt =>
    if (imgsEmptyAlt doc).length > 3 then
      .warning (toString (imgsEmptyAlt doc).length ++ " images with empty alt")
    else .silent
  | .missingLang =>
    match orF doc.langAttr doc.xmlLangAttr with
    | none => .issue ["<html>"]
    | some s => if jsTrim s = "" then .issue ["<html>"] else .pass
  | .missingTitle =>
    if jsTrim doc.titleText = "" then .issue ["<title> element missing"] else .pass
  | .missingHeading =>
    if (headingsOf doc).length = 0 then .issue ["No heading elements found"]
    else .pass
  | .skippedHeading =>
    if (skippedPairs (headingsOf doc)).length > 0 then
      .issue (skippedPairs (headingsOf doc))
    else if (headingsOf doc).length > 0 then .pass
    else .silent
  | .missingFormLabel =>
    if (unlabeledControls doc).length > 0 then .issue (unlabeledControls doc)
    else .pass
  | .emptyLink =>
    if (emptyLinksOf doc).length > 0 then .issue (emptyLinksOf doc) else .pass
  | .emptyButton =>
    if (emptyButtonsOf doc).length > 0 then .issue (emptyButtonsOf doc) else .pass
  | .missingViewport =>
    if !truthy doc.viewportContent then .issue ["No viewport meta tag"] else .pass
  | .noSkipLink =>
    if !hasSkipLink doc && doc.roleNavCount > 0 then
      .warning "Navigation found but no skip link"
    else if hasSkipLink doc then .pass
    else .silent
  | .missingLandmark =>
    if landmarkCount doc = 0 then .issue ["No semantic landmarks found"] else .pass
  | .lowContrastText => .silent
  | .autoplayMedia =>
    if (doc.autoplayEls.map (fun t => "<" ++ t ++ " autoplay>")).length > 0 then
      .issue (doc.autoplayEls.map (fun t => "<" ++ t ++ " autoplay>"))
    else .pass
  | .tabindexPositive =>
    if (posTabindex doc).length > 0 then .issue (posTabindex doc) else .pass
  | .missingTableHeader =>
    if (tablesNoHeader doc).length > 0 then .issue (tablesNoHeader doc)
    else if (dataTablesOf doc).length > 0 then .pass
    else .silent
  | .metaRefresh =>
    if doc.metaRefreshCount > 0 then .issue ["<meta http-equiv=\"refresh\">"]
    else .pass
  | .inlineStylesText =>
    if inlineColorCount doc > 5 then
      .warning (toString (inlineColorCount doc) ++
        " elements with inline color styles")
    else .silent
  | .colorContrastInline =>
    if (contrastViolations doc.styledEls).length > 0 then
      .issue (contrastViolations doc.styledEls)
    else .pass
  | .keyboardTrap =>
    if (keyboardTraps doc).length > 0 then .issue (keyboardTraps doc) else .pass
  | .missingFocusStyle =>
    if (focusSuppressedList doc).length > 0 then .issue (focusSuppressedList doc)
    else .pass
  | .genericLinkText =>
    if (genericLinksOf doc).length > 0 then .issue (genericLinksOf doc) else .pass
  | .missingKeyboardAccess =>
    if (noKeyboardList doc).length > 0 then .issue (noKeyboardList doc) else .pass

/-- The blocks in source order (each block owns one rule id, so this also
fixes the push order of the three result arrays). -/
def ruleOrder : List RuleId :=
  [.missingAlt, .emptyAlt, .missingLang, .missingTitle, .missingHeading,
   .skippedHeading, .missingFormLabel, .emptyLink, .emptyButton,
   .missingViewport, .noSkipLink, .missingLandmark, .autoplayMedia,
   .tabindexPositive, .missingTableHeader, .metaRefresh, .inlineStylesText,
   .colorContrastInline, .keyboardTrap, .missingFocusStyle, .genericLinkText,
   .missingKeyboardAccess]

/-- `totalChecks > 0 ? Math.round((passes.length / totalChecks) * 100) : 0`
over exact rationals (passes and issues are counts, so the quotient is
non-negative and `Math.round` is `round`). -/
def scoreOf (passCount issueCount : Nat) : Nat :=
  if 0 < passCount + issueCount then
    (round (((passCount : ℚ) / ((passCount : ℚ) + (issueCount : ℚ))) * 100)).toNat
  else 0

/-- The compliance cascade: any critical issue, else more than one serious
issue, else any issue, else compliant. -/
def complianceOf (issues : List Issue) : ComplianceLevel :=
  if (issues.filter (fun i => i.impact = Severity.critical)).length > 0 then
    .nonCompliant
  else if (issues.filter (fun i => i.impact = Severity.serious)).length > 1 then
    .partiallyCompliant
  else if issues.length > 0 then .needsImprovement
  else .compliant

structure Summary where
  totalChecks : Nat
  passed : Nat
  issueCount : Nat
  warningCount : Nat
  critical : Nat
  serious : Nat
  moderate : Nat
  minor : Nat
  deriving DecidableEq, Repr

structure ScanOut where
  score : Nat
  complianceLevel : ComplianceLevel
  summary : Summary
  issues : List Issue
  warnings : List ScanWarning
  passes : List Pass
  deriving Repr

/-- `addIssue`: the rule's catalogue entry spread into the record, the first
five excerpts, and the full count. -/
def mkIssue (r : RuleId) (elems : List String) : Issue :=
  ⟨r, impactOf r, elems.take 5, elems.length⟩

/-- A rule's contribution to the `issues` array. -/
noncomputable def issueEntry (doc : Doc) (r : RuleId) : Option Issue :=
  match ruleOutcome doc r with
  | .issue elems => some (mkIssue r elems)
  | _ => none

/-- A rule's contribution to the `warnings` array. -/
noncomputable def warningEntry (doc : Doc) (r : RuleId) : Option ScanWarning :=
  match ruleOutcome doc r with
  | .warning d => some ⟨r, d⟩
  | _ => none

/-- A rule's contribution to the `passes` array. -/
noncomputable def passEntry (doc : Doc) (r : RuleId) : Option Pass :=
  match ruleOutcome doc r with
  | .pass => some ⟨r⟩
  | _ => none

/-- The evaluator+scorer: run every block in order, collecting the issue,
warning and pass arrays, then compute the score and compliance level from
them, with severity counts in the summary. -/
noncomputable def scanHTML (doc : Doc) : ScanOut :=
  let issues := ruleOrder.filterMap (issueEntry doc)
  let warnings := ruleOrder.filterMap (warningEntry doc)
  let passes := ruleOrder.filterMap (passEntry doc)
  { score := scoreOf passes.length issues.length
    complianceLevel := complianceOf issues
    summary :=
      { totalChecks := issues.length + passes.length
        passed := passes.length
        issueCount := issues.length
        warningCount := warnings.length
        critical := (issues.filter (fun i => i.impact = Severity.critical)).length
        serious := (issues.filter (fun i => i.impact = Severity.serious)).length
        moderate := (issues.filter (fun i => i.impact = Severity.moderate)).length
        minor := (issues.filter (fun i => i.impact = Severity.minor)).length }
    issues := issues
    warnings := warnings
    passes := passes }

/-- Under which condition each rule is applicable, i.e. guaranteed by its
block to contribute an issue or a pass: always, except that the
heading-skip rule needs at least one heading, the table-header rule at least
one data table, the skip-link rule only passes when a skip link exists (its
only other outcomes are a warning or silence), and the three warning-only
catalogue entries never contribute an issue or a pass. -/
def applicableRule (doc : Doc) : RuleId → Bool
  | .skippedHeading => !(headingsOf doc).isEmpty
  | .missingTableHeader => !(dataTablesOf doc).isEmpty
  | .emptyAlt => false
  | .inlineStylesText => false
  | .lowContrastText => false
  | .noSkipLink => hasSkipLink doc
  | _ => true

/-- A small page for the concrete witnesses: language and title set, one
heading, one landmark of each kind, no issues of any kind and no styled
elements. -/
def demoDoc : Doc :=
  { imgs := [], langAttr := some "en", xmlLangAttr := none, titleText := "Test",
    headingEls := [⟨1, "Hello"⟩], formControls := [], labelFors := [],
    links := [], buttons := [], viewportContent := some "width=device-width",
    roleNavCount := 0, mainCount := 1, navCount := 1, headerCount := 1,
    footerCount := 1, autoplayEls := [], tabindexEls := [], tables := [],
    metaRefreshCount := 0, styledEls := [], keyEls := [],
    styleFocusMatches := [], interactiveStyled := [], clickEls := [] }

/-- One serious issue and no critical issue, for the C2 witness. -/
def demoIssues : List Issue :=
  [⟨.missingLang, .serious, ["<html>"], 1⟩]

/-! ## Theorems

Sanity evaluations of the embedded definitions, the helper lemmas, and the
claim theorems C1-C10 with their witnesses. -/

example : parseColor "#777" = some ⟨119, 119, 119⟩ := by decide
example : parseColor "#fff" = some ⟨255, 255, 255⟩ := by decide
example : parseColor " WHITE " = some ⟨255, 255, 255⟩ := by decide
example : parseColor "transparent" = none := by decide
example : parseColor "rgb(12, 34,56)" = some ⟨12, 34, 56⟩ := by decide
example : parseColor "#abcd" = none := by decide
example : parseColor "bogus" = none := by decide
example : jsParseInt " -3x" = some (-3) := by decide
example : jsParseInt "x" = none := by decide

/-- C5: the fetcher follows redirect responses (3xx with a location header) up
to a cap of 5. A chain of exactly 5 hops followed by a terminal success still
succeeds; a chain of exactly 6 hops fails with the too-many-redirects error;
a redirect target that does not parse as a URL fails with the invalid-redirect
error. -/
theorem c5_redirect_cap :
    fetchModel net5 resolveId "u0" = .ok "done" ∧
    fetchModel net6 resolveId "u0" = .error .tooManyRedirects ∧
    fetchModel netBadTarget resolveBad "u0" = .error .invalidRedirect := by
  refine ⟨?_, ?_, ?_⟩
  · simp [fetchModel, doFetch, net5, redirResp, resolveId, terminalResult]
  · simp [fetchModel, doFetch, net6, redirResp, resolveId, terminalResult]
  · simp [fetchModel, doFetch, netBadTarget, redirResp, resolveBad, terminalResult]

/-- C6 counterexample: a terminal 204 No Content response is a 2xx success
status, yet the fetcher rejects it with the HTTP-status error instead of
returning the decoded body, because the terminal check is `statusCode !== 200`
rather than "not 2xx". -/
theorem c6_counterexample :
    (200 ≤ 204 ∧ 204 < 300) ∧
    fetchModel (constNet 204 "body-text") resolveId "https://example.com" =
      .error (.httpStatus 204) ∧
    fetchModel (constNet 204 "body-text") resolveId "https://example.com" ≠
      .ok "body-text" := by
  refine ⟨⟨by norm_num, by norm_num⟩, ?_, ?_⟩
  · simp [fetchModel, doFetch, constNet, terminalResult]
  · simp [fetchModel, doFetch, constNet, terminalResult]

/-- C6 amended: for every fetch reaching a terminal (non-redirect) response,
the result is the terminal handler's, and that handler fails with an
HTTP-status error exactly when the terminal status code is not 200 — so any
non-200 response, other 2xx codes included, is rejected — while a 200
response returns the decoded text body. -/
theorem c6_terminal_status :
    (∀ (net : String → NetResp) (resolve : String → String → Option String)
        (u : String) (redirects : Nat),
      ¬(300 ≤ (net u).status ∧ (net u).status < 400 ∧
          truthy (net u).location = true) →
        doFetch net resolve u redirects = terminalResult (net u)) ∧
    (∀ res : NetResp,
      terminalResult res =
        if res.status = 200 then .ok res.body else .error (.httpStatus res.status)) := by
  constructor
  · intro net resolve u redirects h
    rw [doFetch]
    cases hl : (net u).location with
    | none => simp [hl]
    | some loc =>
      have hcond : ¬(300 ≤ (net u).status ∧ (net u).status < 400 ∧ loc ≠ "") := by
        intro hr
        refine h ⟨hr.1, hr.2.1, ?_⟩
        rw [hl]
        simp [truthy, hr.2.2]
      simp only [hl, if_neg hcond]
  · intro res
    rw [terminalResult]
    by_cases h : res.status = 200 <;> simp [h]

/-- C6 amended witness: a terminal 204 response (no location header) takes
the terminal path and is rejected as HTTP 204. -/
theorem c6_terminal_status_witness :
    (¬(300 ≤ (constNet 204 "nc" "u").status ∧ (constNet 204 "nc" "u").status < 400 ∧
        truthy (constNet 204 "nc" "u").location = true)) ∧
    doFetch (constNet 204 "nc") resolveId "u" 0 =
      terminalResult (constNet 204 "nc" "u") :=
  ⟨by decide, c6_terminal_status.1 (constNet 204 "nc") resolveId "u" 0 (by decide)⟩

/-- C7: after every successful scheduled scan, the monitor at the head of the
tick's list is updated so that its next-due timestamp is now plus the fixed
duration determined solely by its frequency, and that duration is 24 hours for
daily, 7 days for weekly and a fixed 30 days for monthly. -/
theorem c7_next_due_interval (outcome : Monitor → Option ScanRec) (now : Nat)
    (m : Monitor) (rest : List Monitor) (hist : List ScanRec) (sr : ScanRec)
    (hA : m.active = true) (hD : dueAt m now = true) (hO : outcome m = some sr) :
    (∃ m', (runScheduledScans outcome now (m :: rest) hist).1.head? = some m' ∧
      m'.lastScanAt = some now ∧ m'.lastScore = some sr.score ∧
      m'.nextScanAt = some (now + intervalMs m.frequency)) ∧
    intervalMs "daily" = 24 * 60 * 60 * 1000 ∧
    intervalMs "weekly" = 7 * 24 * 60 * 60 * 1000 ∧
    intervalMs "monthly" = 30 * 24 * 60 * 60 * 1000 := by
  refine ⟨?_, by decide, by decide, by decide⟩
  simp [runScheduledScans, hA, hD, hO]

/-- C7 witness at a concrete daily monitor due at tick time 1000. -/
theorem c7_next_due_interval_witness :
    (monDaily.active = true ∧ dueAt monDaily 1000 = true ∧
      outcomeOk monDaily = some ⟨"https://example.com", 91⟩) ∧
    ((∃ m', (runScheduledScans outcomeOk 1000 [monDaily] []).1.head? = some m' ∧
      m'.lastScanAt = some 1000 ∧
      m'.lastScore = some (ScanRec.mk "https://example.com" 91).score ∧
      m'.nextScanAt = some (1000 + intervalMs monDaily.frequency)) ∧
    intervalMs "daily" = 24 * 60 * 60 * 1000 ∧
    intervalMs "weekly" = 7 * 24 * 60 * 60 * 1000 ∧
    intervalMs "monthly" = 30 * 24 * 60 * 60 * 1000) :=
  ⟨⟨rfl, by decide, rfl⟩,
    c7_next_due_interval outcomeOk 1000 monDaily [] [] ⟨"https://example.com", 91⟩
      rfl (by decide) rfl⟩

/-- C10: when the scan of a due, active monitor throws, the tick leaves that
monitor completely unchanged (so no last-scan/last-score/next-due update), it
appends no scan record for it (the history threaded to the rest of the tick is
the unchanged one), the remaining monitors are still processed exactly as they
would be on their own, and the monitor remains due at every later tick time. -/
theorem c10_failed_scan_frame (outcome : Monitor → Option ScanRec) (now : Nat)
    (m : Monitor) (rest : List Monitor) (hist : List ScanRec)
    (hA : m.active = true) (hD : dueAt m now = true) (hO : outcome m = none) :
    runScheduledScans outcome now (m :: rest) hist =
      (m :: (runScheduledScans outcome now rest hist).1,
        (runScheduledScans outcome now rest hist).2) ∧
    ∀ later, now ≤ later → dueAt m later = true := by
  constructor
  · simp [runScheduledScans, hA, hD, hO]
  · intro later hl
    unfold dueAt at hD ⊢
    cases h : m.nextScanAt with
    | none => rfl
    | some t => rw [h] at hD; simp at hD ⊢; omega

/-- C10 witness: a concrete failing scan at tick time 1000, with one more
monitor after it in the tick. -/
theorem c10_failed_scan_frame_witness :
    (monDaily.active = true ∧ dueAt monDaily 1000 = true ∧
      outcomeFail monDaily = none) ∧
    (runScheduledScans outcomeFail 1000 [monDaily, monWeekly] [] =
      (monDaily :: (runScheduledScans outcomeFail 1000 [monWeekly] []).1,
        (runScheduledScans outcomeFail 1000 [monWeekly] []).2) ∧
    ∀ later, 1000 ≤ later → dueAt monDaily later = true) :=
  ⟨⟨rfl, by decide, rfl⟩,
    c10_failed_scan_frame outcomeFail 1000 monDaily [monWeekly] [] rfl (by decide) rfl⟩

/-- C8 failing input: the handler stores a new monitor's e-mail lowercased
(`email.trim().toLowerCase()`) but looks existing monitors up by the raw
submitted e-mail (`m.email === email`). Registering twice with the same URL
and the same contact `User@Example.com` (weekly, then daily) therefore
creates two monitor records — both stored for the identical normalised pair
(`https://example.com`, `user@example.com`) — instead of updating the first
record's frequency to daily as the claimed idempotency requires. -/
theorem c8_case_sensitive_lookup_duplicates :
    ((registerMonitor (fun _ => true) "id-2" 0 "example.com" "User@Example.com"
        "daily"
        (registerMonitor (fun _ => true) "id-1" 0 "example.com" "User@Example.com"
          "weekly" []).2).2.length = 2) ∧
    ((registerMonitor (fun _ => true) "id-2" 0 "example.com" "User@Example.com"
        "daily"
        (registerMonitor (fun _ => true) "id-1" 0 "example.com" "User@Example.com"
          "weekly" []).2).2.map (fun m => (m.url, m.email, m.frequency)) =
      [("https://example.com", "user@example.com", "weekly"),
       ("https://example.com", "user@example.com", "daily")]) := by
  constructor
  · decide
  · decide

/-- First-occurrence membership in the Set model. -/
theorem mem_dedupFirstAux (a : RuleId) (l : List RuleId) :
    ∀ seen, a ∈ dedupFirstAux seen l ↔ (a ∈ l ∧ a ∉ seen) := by
  induction l with
  | nil => intro seen; simp [dedupFirstAux]
  | cons x xs ih =>
    intro seen
    by_cases hx : x ∈ seen
    · rw [dedupFirstAux, if_pos hx, ih]
      constructor
      · rintro ⟨h1, h2⟩; exact ⟨List.mem_cons_of_mem _ h1, h2⟩
      · rintro ⟨h1, h2⟩
        rcases List.mem_cons.mp h1 with rfl | h1
        · exact absurd hx h2
        · exact ⟨h1, h2⟩
    · rw [dedupFirstAux, if_neg hx]
      rw [List.mem_cons, ih]
      constructor
      · rintro (rfl | ⟨h1, h2⟩)
        · exact ⟨List.mem_cons_self _ _, hx⟩
        · simp only [List.mem_cons] at h2
          push_neg at h2
          exact ⟨List.mem_cons_of_mem _ h1, h2.2⟩
      · rintro ⟨h1, h2⟩
        rcases List.mem_cons.mp h1 with rfl | h1
        · exact Or.inl rfl
        · by_cases hax : a = x
          · exact Or.inl hax
          · exact Or.inr ⟨h1, by simp [List.mem_cons, hax, h2]⟩

theorem mem_dedupFirst (a : RuleId) (l : List RuleId) :
    a ∈ dedupFirst l ↔ a ∈ l := by
  rw [dedupFirst, mem_dedupFirstAux]; simp

theorem buildHistory_diff (scans : List RecLite) :
    ∀ (p : Option RecLite) (i : Nat) (prevR curr : RecLite),
      scans.get? i = some prevR → scans.get? (i+1) = some curr →
      ∃ entry, (buildHistory p scans).get? (i+1) = some entry ∧
        entry.diff = some (mkDiff prevR curr) := by
  induction scans with
  | nil => intro p i prevR curr h1 _; simp at h1
  | cons s rest ih =>
    intro p i prevR curr h1 h2
    cases i with
    | zero =>
      simp at h1
      subst h1
      cases rest with
      | nil => simp at h2
      | cons s2 rest2 =>
        simp at h2
        subst h2
        exact ⟨{ id := s2.id, score := s2.score, diff := some (mkDiff s s2) },
          by simp [buildHistory], rfl⟩
    | succ j =>
      have := ih (some s) j prevR curr (by simpa using h1) (by simpa using h2)
      simpa [buildHistory] using this

/-- C4: for every pair of consecutive scan records in a hostname's history,
the pairwise diff is the set difference of issue rule identifiers in each
direction (fixed = earlier minus later, new = later minus earlier); when the
two records' issue-rule-identifier sets are equal the fixed and new counts are
both zero, regardless of occurrence-count changes within the same rule. -/
theorem c4_consecutive_diff (scans : List RecLite) (i : Nat) (prevR curr : RecLite)
    (hp : scans.get? i = some prevR) (hc : scans.get? (i+1) = some curr) :
    ∃ entry, (buildHistory none scans).get? (i+1) = some entry ∧
      entry.diff = some (mkDiff prevR curr) ∧
      (∀ rid, rid ∈ (mkDiff prevR curr).issuesFixed ↔
        (rid ∈ prevR.issues.map (fun iss => iss.ruleId) ∧
          rid ∉ curr.issues.map (fun iss => iss.ruleId))) ∧
      (∀ rid, rid ∈ (mkDiff prevR curr).newIssues ↔
        (rid ∈ curr.issues.map (fun iss => iss.ruleId) ∧
          rid ∉ prevR.issues.map (fun iss => iss.ruleId))) ∧
      ((prevR.issues.map (fun iss => iss.ruleId)).toFinset =
          (curr.issues.map (fun iss => iss.ruleId)).toFinset →
        (mkDiff prevR curr).issuesFixedCount = 0 ∧
          (mkDiff prevR curr).newIssuesCount = 0) := by
  obtain ⟨entry, h1, h2⟩ := buildHistory_diff scans none i prevR curr hp hc
  have hfix : ∀ rid, rid ∈ (mkDiff prevR curr).issuesFixed ↔
      (rid ∈ prevR.issues.map (fun iss => iss.ruleId) ∧
        rid ∉ curr.issues.map (fun iss => iss.ruleId)) := by
    intro rid
    simp [mkDiff, List.mem_filter, mem_dedupFirst]
  have hnew : ∀ rid, rid ∈ (mkDiff prevR curr).newIssues ↔
      (rid ∈ curr.issues.map (fun iss => iss.ruleId) ∧
        rid ∉ prevR.issues.map (fun iss => iss.ruleId)) := by
    intro rid
    simp [mkDiff, List.mem_filter, mem_dedupFirst]
  refine ⟨entry, h1, h2, hfix, hnew, ?_⟩
  intro hset
  have hmem : ∀ rid : RuleId,
      rid ∈ prevR.issues.map (fun iss => iss.ruleId) ↔
        rid ∈ curr.issues.map (fun iss => iss.ruleId) := by
    intro rid
    constructor
    · intro h
      have := List.mem_toFinset.mpr h
      rw [hset] at this
      exact List.mem_toFinset.mp this
    · intro h
      have := List.mem_toFinset.mpr h
      rw [← hset] at this
      exact List.mem_toFinset.mp this
  constructor
  · have : (mkDiff prevR curr).issuesFixed = [] := by
      rw [List.eq_nil_iff_forall_not_mem]
      intro rid hr
      obtain ⟨ha, hb⟩ := (hfix rid).mp hr
      exact hb ((hmem rid).mp ha)
    have hlen : (mkDiff prevR curr).issuesFixedCount =
        (mkDiff prevR curr).issuesFixed.length := by
      simp [mkDiff]
    rw [hlen, this, List.length_nil]
  · have : (mkDiff prevR curr).newIssues = [] := by
      rw [List.eq_nil_iff_forall_not_mem]
      intro rid hr
      obtain ⟨ha, hb⟩ := (hnew rid).mp hr
      exact hb ((hmem rid).mpr ha)
    have hlen : (mkDiff prevR curr).newIssuesCount =
        (mkDiff prevR curr).newIssues.length := by
      simp [mkDiff]
    rw [hlen, this, List.length_nil]

/-- C4 witness: two consecutive records whose issue sets both consist of the
missing-alt rule, with occurrence counts 3 and 1: the diff reports zero fixed
and zero new issues. -/
theorem c4_consecutive_diff_witness :
    ([recThree, recOne].get? 0 = some recThree ∧
      [recThree, recOne].get? 1 = some recOne) ∧
    (∃ entry, (buildHistory none [recThree, recOne]).get? 1 = some entry ∧
      entry.diff = some (mkDiff recThree recOne) ∧
      (∀ rid, rid ∈ (mkDiff recThree recOne).issuesFixed ↔
        (rid ∈ recThree.issues.map (fun iss => iss.ruleId) ∧
          rid ∉ recOne.issues.map (fun iss => iss.ruleId))) ∧
      (∀ rid, rid ∈ (mkDiff recThree recOne).newIssues ↔
        (rid ∈ recOne.issues.map (fun iss => iss.ruleId) ∧
          rid ∉ recThree.issues.map (fun iss => iss.ruleId))) ∧
      ((recThree.issues.map (fun iss => iss.ruleId)).toFinset =
          (recOne.issues.map (fun iss => iss.ruleId)).toFinset →
        (mkDiff recThree recOne).issuesFixedCount = 0 ∧
          (mkDiff recThree recOne).newIssuesCount = 0)) ∧
    ((mkDiff recThree recOne).issuesFixedCount = 0 ∧
      (mkDiff recThree recOne).newIssuesCount = 0) :=
  ⟨⟨rfl, rfl⟩,
    c4_consecutive_diff [recThree, recOne] 0 recThree recOne rfl rfl,
    by decide⟩

theorem nodup_ruleOrder : ruleOrder.Nodup := by decide

theorem countP_key {β : Type} (key : β → RuleId) (f : RuleId → Option β)
    (hf : ∀ r b, f r = some b → key b = r) (r : RuleId) :
    ∀ (l : List RuleId), l.Nodup →
      (l.filterMap f).countP (fun b => key b = r) =
        if r ∈ l ∧ (f r).isSome then 1 else 0 := by
  intro l
  induction l with
  | nil => intro _; simp
  | cons x xs ih =>
    intro hnd
    rw [List.nodup_cons] at hnd
    rw [List.filterMap_cons]
    cases hfx : f x with
    | none =>
      rw [ih hnd.2]
      by_cases hr : r = x
      · subst hr
        simp [hfx, hnd.1]
      · simp [List.mem_cons, hr]
    | some b =>
      have hkey := hf x b hfx
      rw [List.countP_cons, ih hnd.2]
      by_cases hr : r = x
      · subst hr
        simp [hfx, hnd.1, hkey]
      · have : (decide (key b = r)) = false := by
          simp [hkey]; exact fun h => hr h.symm
        simp [List.mem_cons, hr, this]

theorem outcome_issue_elems (doc : Doc) (r : RuleId) (elems : List String)
    (h : ruleOutcome doc r = .issue elems) : elems ≠ [] := by
  cases r <;> simp only [ruleOutcome] at h <;>
    (repeat' split at h) <;>
    (try cases h) <;>
    simp_all [List.length_pos]

theorem issueEntry_tag (doc : Doc) (r : RuleId) (iss : Issue)
    (h : issueEntry doc r = some iss) : iss.ruleId = r := by
  unfold issueEntry at h
  split at h
  · cases h; rfl
  · cases h

theorem passEntry_tag (doc : Doc) (r : RuleId) (p : Pass)
    (h : passEntry doc r = some p) : p.ruleId = r := by
  unfold passEntry at h
  split at h
  · cases h; rfl
  · cases h

theorem not_issue_and_pass (doc : Doc) (r : RuleId) :
    ¬((issueEntry doc r).isSome ∧ (passEntry doc r).isSome) := by
  rintro ⟨h1, h2⟩
  unfold issueEntry at h1
  unfold passEntry at h2
  cases ho : ruleOutcome doc r <;> rw [ho] at h1 h2 <;> simp at h1 h2

theorem applicable_issue_or_pass (doc : Doc) (r : RuleId)
    (h : applicableRule doc r = true) :
    (issueEntry doc r).isSome ∨ (passEntry doc r).isSome := by
  have : (∃ e, ruleOutcome doc r = .issue e) ∨ ruleOutcome doc r = .pass := by
    cases r <;> simp only [applicableRule] at h <;>
      simp only [ruleOutcome] <;>
      (repeat' split) <;>
      simp_all [List.length_pos, List.isEmpty_iff]
  unfold issueEntry passEntry
  rcases this with ⟨e, he⟩ | hp
  · left; rw [he]; rfl
  · right; rw [hp]; rfl

theorem applicable_mem_ruleOrder (doc : Doc) (r : RuleId)
    (h : applicableRule doc r = true) : r ∈ ruleOrder := by
  cases r <;> first
    | decide
    | simp [applicableRule] at h

theorem scanHTML_issues (doc : Doc) :
    (scanHTML doc).issues = ruleOrder.filterMap (issueEntry doc) := rfl

theorem scanHTML_passes (doc : Doc) :
    (scanHTML doc).passes = ruleOrder.filterMap (passEntry doc) := rfl

/-- C9: for every scan and every rule in the catalogue, the rule contributes
at most one of Issue / Pass to the scan's results and never both (their
multiplicities sum to at most 1); when the rule is applicable it contributes
exactly one of the two (a rule may instead be silently inapplicable or
contribute only a warning); and every recorded Issue carries at least one
found violation. -/
theorem c9_rule_contribution (doc : Doc) (r : RuleId) :
    (scanHTML doc).issues.countP (fun i => i.ruleId = r) +
        (scanHTML doc).passes.countP (fun p => p.ruleId = r) ≤ 1 ∧
    (applicableRule doc r = true →
      (scanHTML doc).issues.countP (fun i => i.ruleId = r) +
        (scanHTML doc).passes.countP (fun p => p.ruleId = r) = 1) ∧
    (∀ iss ∈ (scanHTML doc).issues, 0 < iss.count ∧ iss.elements ≠ []) := by
  have hI := countP_key Issue.ruleId (issueEntry doc)
    (fun r b h => issueEntry_tag doc r b h) r ruleOrder nodup_ruleOrder
  have hP := countP_key Pass.ruleId (passEntry doc)
    (fun r b h => passEntry_tag doc r b h) r ruleOrder nodup_ruleOrder
  rw [scanHTML_issues, scanHTML_passes, hI, hP]
  refine ⟨?_, ?_, ?_⟩
  · by_cases hmem : r ∈ ruleOrder
    · by_cases h1 : (issueEntry doc r).isSome
      · have h2 : ¬ (passEntry doc r).isSome := fun h2 =>
          not_issue_and_pass doc r ⟨h1, h2⟩
        simp [hmem, h1, h2]
      · simp [hmem, h1]
        split <;> omega
    · simp [hmem]
  · intro happ
    have hmem := applicable_mem_ruleOrder doc r happ
    rcases applicable_issue_or_pass doc r happ with h1 | h1
    · have h2 : ¬ (passEntry doc r).isSome := fun h2 =>
        not_issue_and_pass doc r ⟨h1, h2⟩
      simp [hmem, h1, h2]
    · have h2 : ¬ (issueEntry doc r).isSome := fun h2 =>
        not_issue_and_pass doc r ⟨h2, h1⟩
      simp [hmem, h1, h2]
  · intro iss hmem
    rw [List.mem_filterMap] at hmem
    obtain ⟨r', hr'⟩ := hmem
    have hr'2 := hr'.2
    unfold issueEntry at hr'2
    split at hr'2
    case _ elems helems =>
      cases hr'2
      have hne := outcome_issue_elems doc r' elems helems
      have hpos : 0 < elems.length := List.length_pos.mpr hne
      constructor
      · simpa [mkIssue] using hpos
      · have : 0 < (elems.take 5).length := by
          rw [List.length_take]
          omega
        simpa [mkIssue] using List.ne_nil_of_length_pos this
    case _ => cases hr'2

theorem filter_len_pos (issues : List Issue) (sev : Severity) :
    0 < (issues.filter (fun i => i.impact = sev)).length ↔
      ∃ iss ∈ issues, iss.impact = sev := by
  rw [List.length_pos]
  constructor
  · intro h
    obtain ⟨iss, hmem⟩ := List.exists_mem_of_ne_nil _ h
    have := List.mem_filter.mp hmem
    exact ⟨iss, this.1, by simpa using this.2⟩
  · rintro ⟨iss, h1, h2⟩
    exact List.ne_nil_of_mem (List.mem_filter.mpr ⟨h1, by simpa using h2⟩)

/-- C2: the compliance level is exactly the ordinal escalation of the issue
severity multiset: non-compliant iff a critical issue exists; else
partially-compliant iff strictly more than one serious issue exists; else
needs-improvement iff any issue exists; else compliant. In particular one
serious issue with no critical issue yields needs-improvement. -/
theorem c2_compliance_escalation (doc : Doc) :
    ((scanHTML doc).complianceLevel = complianceOf (scanHTML doc).issues) ∧
    (∀ issues : List Issue,
      (complianceOf issues = .nonCompliant ↔
        ∃ iss ∈ issues, iss.impact = Severity.critical) ∧
      (complianceOf issues = .partiallyCompliant ↔
        (¬∃ iss ∈ issues, iss.impact = Severity.critical) ∧
          1 < (issues.filter (fun i => i.impact = Severity.serious)).length) ∧
      (complianceOf issues = .needsImprovement ↔
        (¬∃ iss ∈ issues, iss.impact = Severity.critical) ∧
          (issues.filter (fun i => i.impact = Severity.serious)).length ≤ 1 ∧
          issues ≠ []) ∧
      (complianceOf issues = .compliant ↔ issues = []) ∧
      ((¬∃ iss ∈ issues, iss.impact = Severity.critical) ∧
          (issues.filter (fun i => i.impact = Severity.serious)).length = 1 →
        complianceOf issues = .needsImprovement)) := by
  refine ⟨rfl, ?_⟩
  intro issues
  have hc := filter_len_pos issues Severity.critical
  have hs := filter_len_pos issues Severity.serious
  by_cases h1 : 0 < (issues.filter (fun i => i.impact = Severity.critical)).length
  · have he : ∃ iss ∈ issues, iss.impact = Severity.critical := hc.mp h1
    have hne : issues ≠ [] := by
      obtain ⟨iss, hm, _⟩ := he
      exact List.ne_nil_of_mem hm
    refine ⟨?_, ?_, ?_, ?_, ?_⟩ <;>
      simp [complianceOf, h1, he, hne]
  · have he : ¬∃ iss ∈ issues, iss.impact = Severity.critical := fun h => h1 (hc.mpr h)
    by_cases h2 : 1 < (issues.filter (fun i => i.impact = Severity.serious)).length
    · have hne : issues ≠ [] := by
        have : 0 < (issues.filter (fun i => i.impact = Severity.serious)).length := by omega
        obtain ⟨iss, hm, _⟩ := hs.mp this
        exact List.ne_nil_of_mem hm
      refine ⟨?_, ?_, ?_, ?_, ?_⟩ <;>
        simp [complianceOf, h1, h2, he, hne] <;> omega
    · by_cases h3 : 0 < issues.length
      · have hne : issues ≠ [] := List.ne_nil_of_length_pos h3
        refine ⟨?_, ?_, ?_, ?_, ?_⟩ <;>
          simp [complianceOf, h1, h2, h3, he, hne] <;> omega
      · have hnil : issues = [] := by
          cases issues with
          | nil => rfl
          | cons a l => simp at h3
        subst hnil
        refine ⟨?_, ?_, ?_, ?_, ?_⟩ <;> simp [complianceOf]

/-- C1: the score equals round(100 x passed / (passed + issued)) whenever
passed + issued > 0, equals 0 when no rule was applicable, and always lies in
[0, 100]; the scan's score is exactly this function of its pass and issue
counts. -/
theorem c1_score_formula_and_bounds (p i : Nat) (doc : Doc) :
    (0 < p + i → scoreOf p i =
      (round ((100 * (p : ℚ)) / ((p : ℚ) + (i : ℚ)))).toNat) ∧
    (p + i = 0 → scoreOf p i = 0) ∧
    scoreOf p i ≤ 100 ∧
    (scanHTML doc).score =
      scoreOf (scanHTML doc).passes.length (scanHTML doc).issues.length ∧
    (scanHTML doc).score ≤ 100 := by
  have hb : ∀ a b : Nat, 0 < a + b →
      (round (((a : ℚ) / ((a : ℚ) + (b : ℚ))) * 100)).toNat ≤ 100 := by
    intro a b hab
    have hpos : (0 : ℚ) < (a : ℚ) + (b : ℚ) := by
      have : (0 : ℚ) < ((a + b : Nat) : ℚ) := by exact_mod_cast hab
      push_cast at this
      linarith
    have h1 : (a : ℚ) / ((a : ℚ) + (b : ℚ)) ≤ 1 := by
      rw [div_le_one hpos]
      have : (0 : ℚ) ≤ (b : ℚ) := by positivity
      linarith
    have hq : (a : ℚ) / ((a : ℚ) + (b : ℚ)) * 100 ≤ 100 := by nlinarith
    have hround : round ((a : ℚ) / ((a : ℚ) + (b : ℚ)) * 100) ≤ 100 := by
      rw [round_eq]
      calc ⌊(a : ℚ) / ((a : ℚ) + (b : ℚ)) * 100 + 1 / 2⌋ ≤ ⌊(100 : ℚ) + 1 / 2⌋ :=
            Int.floor_le_floor (by linarith)
        _ = 100 := by norm_num [Int.floor_eq_iff]
    exact Int.toNat_le.mpr hround
  refine ⟨?_, ?_, ?_, rfl, ?_⟩
  · intro hpi
    rw [scoreOf, if_pos hpi]
    congr 1
    rw [div_mul_eq_mul_div, mul_comm]
  · intro hpi
    rw [scoreOf, if_neg (by omega)]
  · by_cases hpi : 0 < p + i
    · rw [scoreOf, if_pos hpi]
      exact hb p i hpi
    · rw [scoreOf, if_neg hpi]
      omega
  · by_cases hpi : 0 < (scanHTML doc).passes.length + (scanHTML doc).issues.length
    · have := hb (scanHTML doc).passes.length (scanHTML doc).issues.length hpi
      show scoreOf (scanHTML doc).passes.length (scanHTML doc).issues.length ≤ 100
      rw [scoreOf, if_pos hpi]
      exact this
    · show scoreOf (scanHTML doc).passes.length (scanHTML doc).issues.length ≤ 100
      rw [scoreOf, if_neg hpi]
      omega

example : findColorDecl "color:#777;background-color:#fff" = some "#777" := by decide
example : findBgDecl "color:#777;background-color:#fff" = some "#fff" := by decide
example : findColorDecl "background-color:#fff" = none := by decide
example : findBgDecl "background:#eee" = some "#eee" := by decide
example : findColorDecl "Color :  red ;x" = some "red " := by decide
example : findColorDecl "xcolor:red" = none := by decide
example : findColorDecl ";color:red" = some "red" := by decide

theorem channelLin_777 : channelLin ((119 : ℝ) / 255) = ((313 : ℝ) / 633) ^ ((12 : ℝ) / 5) := by
  rw [channelLin, if_neg (by norm_num)]
  norm_num

theorem lum_777 : relativeLuminance ⟨119, 119, 119⟩ = ((313 : ℝ) / 633) ^ ((12 : ℝ) / 5) := by
  unfold relativeLuminance
  push_cast
  rw [channelLin_777]
  ring

theorem channelLin_one : channelLin ((255 : ℝ) / 255) = 1 := by
  rw [channelLin, if_neg (by norm_num)]
  have : ((255 : ℝ) / 255 + 0.055) / 1.055 = 1 := by norm_num
  rw [this, Real.one_rpow]

theorem lum_white : relativeLuminance ⟨255, 255, 255⟩ = 1 := by
  unfold relativeLuminance
  push_cast
  rw [channelLin_one]
  ring

theorem rpow_gray_lower : (11 / 60 : ℝ) < ((313 : ℝ) / 633) ^ ((12 : ℝ) / 5) := by
  by_contra hcon
  push_neg at hcon
  have hx0 : (0 : ℝ) ≤ ((313 : ℝ) / 633) ^ ((12 : ℝ) / 5) :=
    Real.rpow_nonneg (by norm_num) _
  have h5 := pow_le_pow_left₀ hx0 hcon 5
  have hrw : (((313 : ℝ) / 633) ^ ((12 : ℝ) / 5)) ^ (5 : ℕ) =
      ((313 : ℝ) / 633) ^ (12 : ℕ) := by
    rw [← Real.rpow_natCast (((313 : ℝ) / 633) ^ ((12 : ℝ) / 5)) 5,
      ← Real.rpow_mul (by norm_num)]
    norm_num
  rw [hrw] at h5
  norm_num at h5

theorem rpow_gray_upper : ((313 : ℝ) / 633) ^ ((12 : ℝ) / 5) < 1 :=
  Real.rpow_lt_one (by norm_num) (by norm_num) (by norm_num)

theorem contrast_777_fff : contrastRatio ⟨119, 119, 119⟩ ⟨255, 255, 255⟩ < 4.5 := by
  rw [contrastRatio, lum_777, lum_white]
  have hlo := rpow_gray_lower
  have hhi := rpow_gray_upper
  rw [max_eq_right hhi.le, min_eq_left hhi.le]
  rw [div_lt_iff₀ (by linarith)]
  norm_num
  linarith

/-- C3: for an element whose inline style yields both a foreground and a
background color expression, the contrast rule records a violation for that
element if and only if both expressions parse to a color (unrecognised or
transparent expressions yield none and the check is skipped) and the contrast
of the two parsed colors is strictly below 4.5. -/
theorem c3_contrast_rule_fires_below_threshold (style text fgs bgs : String)
    (h1 : findColorDecl style = some fgs) (h2 : findBgDecl style = some bgs) :
    (contrastCheck style text).isSome ↔
      ∃ fg bg, parseColor fgs = some fg ∧ parseColor bgs = some bg ∧
        contrastRatio fg bg < 4.5 := by
  unfold contrastCheck
  rw [h1, h2]
  cases hf : parseColor fgs with
  | none => simp [hf]
  | some fg =>
    cases hb : parseColor bgs with
    | none => simp [hf, hb]
    | some bg =>
      by_cases hr : contrastRatio fg bg < 4.5
      · simp [hf, hb, hr]
      · simp [hf, hb, hr]

/-- C3 witness: inline style `color:#777;background-color:#fff` (contrast
about 4.48) produces a contrast violation. -/
theorem c3_contrast_rule_fires_below_threshold_witness :
    (findColorDecl "color:#777;background-color:#fff" = some "#777" ∧
      findBgDecl "color:#777;background-color:#fff" = some "#fff") ∧
    (contrastCheck "color:#777;background-color:#fff" "Sample").isSome :=
  ⟨⟨by decide, by decide⟩,
    (c3_contrast_rule_fires_below_threshold "color:#777;background-color:#fff" "Sample" "#777" "#fff"
        (by decide) (by decide)).mpr
      ⟨⟨119, 119, 119⟩, ⟨255, 255, 255⟩, by decide, by decide, contrast_777_fff⟩⟩

/-- C9 witness: on the demo page the missing-alt rule is applicable and
contributes exactly one of issue/pass. -/
theorem c9_rule_contribution_witness :
    applicableRule demoDoc RuleId.missingAlt = true ∧
    (scanHTML demoDoc).issues.countP (fun i => i.ruleId = RuleId.missingAlt) +
      (scanHTML demoDoc).passes.countP (fun p => p.ruleId = RuleId.missingAlt) = 1 :=
  ⟨by decide, (c9_rule_contribution demoDoc RuleId.missingAlt).2.1 (by decide)⟩

/-- C2 witness: exactly one serious issue and no critical issue classifies as
needs-improvement. -/
theorem c2_compliance_escalation_witness :
    ((¬∃ iss ∈ demoIssues, iss.impact = Severity.critical) ∧
      (demoIssues.filter (fun i => i.impact = Severity.serious)).length = 1) ∧
    complianceOf demoIssues = ComplianceLevel.needsImprovement :=
  ⟨⟨by decide, by decide⟩,
    ((c2_compliance_escalation demoDoc).2 demoIssues).2.2.2.2 ⟨by decide, by decide⟩⟩

/-- C1 witness: one pass and two issues score round(100/3) = 33, within
bounds. -/
theorem c1_score_formula_and_bounds_witness :
    (0 < 1 + 2) ∧
    scoreOf 1 2 =
      (round ((100 * ((1 : Nat) : ℚ)) / (((1 : Nat) : ℚ) + ((2 : Nat) : ℚ)))).toNat ∧
    scoreOf 1 2 ≤ 100 :=
  ⟨by norm_num, (c1_score_formula_and_bounds 1 2 demoDoc).1 (by norm_num),
    (c1_score_formula_and_bounds 1 2 demoDoc).2.2.1⟩
